import Mathlib

/-!
Verification development for the BlitzBot matchmaking engine
(`src/bot.py`, `src/hellcup.py`).

The Python data model is embedded shallowly:
* JSON team records become the `Team` structure; the `"score"` list keeps its
  source type, a list of the strings `"1"` / `"0"` appended by the result
  ingestor in `bot.py`.
* Python floats are modelled as exact rationals (`ℚ`); all the constants
  involved (`0.5`, `0.1`, `0.2`, `0.01`, timeouts) behave identically.
* Python code that can raise is modelled with `Except Unit`; in particular
  `sum` over a list of strings raises `TypeError` (modelled by `pySum`) and
  `list.remove` raises `ValueError` when the element is absent (`pyRemove`).
-/

namespace BlitzBot

/-- A registered player, as stored inside a team record of
`inscriptions.json` (`Discord` id, external profile id, flag, pro status). -/
structure Player where
  discordId : String
  geoguessrId : String
  flag : String
  isPro : Bool
  deriving DecidableEq, Repr

/-- A team record of `inscriptions.json["teams"]` as created by
`hellcup.create_team` and mutated by the result ingestion in `bot.on_message`. -/
structure Team where
  teamName : String
  member1 : Player
  member2 : Player
  score : List String
  previousOpponents : List String
  previousDuelIds : List String
  lastGamemode : Option String
  teamTextChannelId : Nat
  deriving DecidableEq, Repr

/-- The team entry written by `hellcup.create_team` (hellcup.py:460-471):
all three history lists start empty and `lastGamemode` is `None`. -/
def create_team_entry (m1 m2 : Player) (channelId : Nat) : Team :=
  { teamName := m1.discordId ++ "_" ++ m2.discordId
    member1 := m1
    member2 := m2
    score := []
    previousOpponents := []
    previousDuelIds := []
    lastGamemode := none
    teamTextChannelId := channelId }

deriving instance DecidableEq for Except

/-- Python `sum` applied to a list of strings with default start `0`:
`sum([])` is `0`, any non-empty list raises `TypeError` (`0 + str`).
This is what `sum(team["score"])` does in `hellcup.get_duel_score`,
because the result ingestor appends the strings `"1"` / `"0"`. -/
def pySum : List String → Except Unit Int
  | [] => .ok 0
  | _ :: _ => .error ()

/-- Eligibility gate of `hellcup.get_duel_score` (hellcup.py:576):
some player is pro, more than one distinct flag, four pairwise distinct
player ids (`len(set(...))` is modelled by `List.dedup.length`). -/
abbrev eligible (team1 team2 : Team) : Prop :=
  ([team1.member1.isPro, team1.member2.isPro,
    team2.member1.isPro, team2.member2.isPro].any (fun b => b) = true)
  ∧ 1 < ([team1.member1.flag, team1.member2.flag,
          team2.member1.flag, team2.member2.flag] : List String).dedup.length
  ∧ ([team1.member1.discordId, team1.member2.discordId,
      team2.member1.discordId, team2.member2.discordId] : List String).dedup.length = 4

/-- One direction of the novelty component of `hellcup.get_duel_score`
(hellcup.py:578-590): `0.5` if `a` never appears in `b`'s previous opponents,
otherwise `min(0.1 * (reversed-index + 1), 0.5)`. -/
def noveltyTerm (a b : Team) : ℚ :=
  if a.teamName ∉ b.previousOpponents then 1/2
  else min ((1/10 : ℚ) * ((b.previousOpponents.reverse.indexOf a.teamName : ℚ) + 1)) (1/2)

/-- `hellcup.get_duel_score` (hellcup.py:532-602). Returns `.error ()` when the
Python code raises: the skill-balance branch computes `sum(team["score"])`
on lists of outcome strings, which raises `TypeError` whenever both teams
have at least 5 recorded outcomes. -/
def get_duel_score (team1 team2 : Team) (gamemode : String) : Except Unit ℚ :=
  if ¬ eligible team1 team2 then .ok 0
  else
    ((if 5 ≤ team1.score.length ∧ 5 ≤ team2.score.length then
        (pySum team1.score).bind fun s1 =>
          (pySum team2.score).bind fun s2 =>
            .ok ((noveltyTerm team1 team2 + noveltyTerm team2 team1) -
                  |(s1 : ℚ) / (team1.score.length : ℚ) -
                   (s2 : ℚ) / (team2.score.length : ℚ)| * (2/10))
      else .ok (noveltyTerm team1 team2 + noveltyTerm team2 team1)).map fun sc =>
        let sc1 := if team1.lastGamemode = some gamemode then sc - 1/100 else sc
        if team2.lastGamemode = some gamemode then sc1 - 1/100 else sc1)

/-- The two per-mode pending queues of `matchmaking.json["pendingTeams"]`. -/
structure PendingTeams where
  NM : List String
  NMPZ : List String
  deriving DecidableEq, Repr

/-- An entry of `matchmaking.json["currentMatches"]` as built by
`hellcup.create_match` (hellcup.py:733-740).  The `"teams"` tuple is the
pair `(team1, team2)`; the four `usersIds` are the members of `team1`
followed by the members of `team2` (bot.py:763-768). -/
structure MatchRec where
  team1 : String
  team2 : String
  usersIds : List String
  matchType : String
  startTime : Nat
  deriving DecidableEq, Repr

/-- The matchmaking-state document `matchmaking.json`. -/
structure MatchmakingState where
  pendingTeams : PendingTeams
  currentMatches : List MatchRec
  deriving DecidableEq, Repr

/-- Python `list.remove`: removes the first occurrence, raises `ValueError`
when the element is absent. -/
def pyRemove (l : List String) (x : String) : Except Unit (List String) :=
  if x ∈ l then .ok (l.erase x) else .error ()

/-- Queue update of the un-ready branch of `bot.on_interaction`
(bot.py:798-804).  Both `remove` calls sit in a single `try` block whose
`except` discards the error: if removing from `NMPZ` raises, the removal
from `NM` is never attempted, but a successful `NMPZ` removal survives even
when the later `NM` removal raises. -/
def unready_update (p : PendingTeams) (team : String) : PendingTeams :=
  match pyRemove p.NMPZ team with
  | .error _ => p
  | .ok nmpz1 =>
    match pyRemove p.NM team with
    | .error _ => { NM := p.NM, NMPZ := nmpz1 }
    | .ok nm1 => { NM := nm1, NMPZ := nmpz1 }

/-- `if teamKey in lst: lst.remove(teamKey)` as used by `hellcup.create_match`
(hellcup.py:766-773). -/
def removeIfPresent (l : List String) (x : String) : List String :=
  if x ∈ l then l.erase x else l

/-- A scored candidate pair produced by `hellcup.watch_for_matches`:
`((team1, team2), score, gamemode)`. -/
structure Candidate where
  team1 : String
  team2 : String
  score : ℚ
  gamemode : String
  deriving DecidableEq, Repr

/-- The match record built by `hellcup.create_match`. -/
def mkMatchRec (c : Candidate) (allIds : List String) (now : Nat) : MatchRec :=
  { team1 := c.team1
    team2 := c.team2
    usersIds := allIds
    matchType := c.gamemode
    startTime := now }

/-- State update of `hellcup.create_match` (hellcup.py:766-777): remove the
first occurrence of each matched team-key from each mode list when present,
then append the new match record. -/
def create_match (c : Candidate) (mm : MatchmakingState) (allIds : List String)
    (now : Nat) : MatchmakingState :=
  let nm1 := removeIfPresent mm.pendingTeams.NM c.team1
  let nmpz1 := removeIfPresent mm.pendingTeams.NMPZ c.team1
  let nm2 := removeIfPresent nm1 c.team2
  let nmpz2 := removeIfPresent nmpz1 c.team2
  { pendingTeams := { NM := nm2, NMPZ := nmpz2 }
    currentMatches := mm.currentMatches ++ [mkMatchRec c allIds now] }

/-- The pair enumeration of `hellcup.watch_for_matches` (hellcup.py:631-636):
`[(l[i], l[j]) for i in range(n) for j in range(i+1, n)]`. -/
def pairsOf : List String → List (String × String)
  | [] => []
  | x :: xs => xs.map (fun y => (x, y)) ++ pairsOf xs

/-- Descending-by-score comparison used to model Python
`sorted(..., key=lambda x: x[1], reverse=True)`.  Python `sorted` is stable;
`List.insertionSort` with this non-strict relation is a stable sort, hence
extensionally the same function. -/
def scoreGe (a b : (String × String) × ℚ) : Prop := b.2 ≤ a.2

instance : DecidableRel scoreGe := fun a b => inferInstanceAs (Decidable (b.2 ≤ a.2))

/-- Same descending stable sort on tagged candidates. -/
def candGe (a b : Candidate) : Prop := b.score ≤ a.score

instance : DecidableRel candGe := fun a b => inferInstanceAs (Decidable (b.score ≤ a.score))

/-- `hellcup.watch_for_matches` (hellcup.py:605-679): score all pairs of each
mode's queue, sort each mode's list by descending score, tag with the mode's
gamemode, merge, sort again, and keep only the pairs with positive score.
A `TypeError` raised by `get_duel_score` propagates (modelled by `Except`). -/
def watch_for_matches (insc : String → Team) (mm : MatchmakingState) :
    Except Unit (List Candidate) := do
  let nmPairs := pairsOf mm.pendingTeams.NM
  let nmScores ← nmPairs.mapM fun pr =>
    (get_duel_score (insc pr.1) (insc pr.2) "NM 30s").map fun s => (pr, s)
  let nmpzPairs := pairsOf mm.pendingTeams.NMPZ
  let nmpzScores ← nmpzPairs.mapM fun pr =>
    (get_duel_score (insc pr.1) (insc pr.2) "NMPZ 15s").map fun s => (pr, s)
  let nmSorted := nmScores.insertionSort scoreGe
  let nmpzSorted := nmpzScores.insertionSort scoreGe
  let merged :=
    nmSorted.map (fun t => ({ team1 := t.1.1, team2 := t.1.2, score := t.2,
                              gamemode := "NM 30s" } : Candidate))
    ++ nmpzSorted.map (fun t => ({ team1 := t.1.1, team2 := t.1.2, score := t.2,
                                   gamemode := "NMPZ 15s" } : Candidate))
  let mergedSorted := merged.insertionSort candGe
  pure (mergedSorted.filter fun c => 0 < c.score)

/-- Debounce timeout of the match-selection loop (bot.py:735):
`min((1.0 - best.score) * 100, 60)` seconds. -/
def computeTimeout (score : ℚ) : ℚ := min ((1 - score) * 100) 60

/-- Team keys have the shape `idA_idB`; the loop splits them back into the
four player ids (bot.py:763-768). -/
def splitKey (k : String) : List String := k.splitOn "_"

/-- The four player ids of a candidate pair, `team1`'s members first. -/
def allIdsOf (c : Candidate) : List String :=
  [(splitKey c.team1).getD 0 "", (splitKey c.team1).getD 1 "",
   (splitKey c.team2).getD 0 "", (splitKey c.team2).getD 1 ""]

/-- State carried by the debounce loop of `bot.on_interaction`
(bot.py:732-791): the module-level `user_in_match` list, the matchmaking
document, and the current ranked candidate list. -/
structure LoopState where
  userInMatch : List String
  mm : MatchmakingState
  candidates : List Candidate
  deriving DecidableEq, Repr

/-- One iteration of the debounce `while` body (bot.py:732-789).
`eventArrived` tells whether a qualifying readiness-toggle event arrived
before the `timeout` deadline.  If the timeout is below 5 the wait is
short-circuited (`raise asyncio.TimeoutError`).  On the timeout path the
head candidate is popped; if none of its four players is in `user_in_match`
the match is created, and in both cases the queues are re-scanned.  When the
event arrives instead, nothing changes and the loop re-enters with the same
candidate list. -/
def loop_iter (insc : String → Team) (eventArrived : Bool) (now : Nat)
    (s : LoopState) : Except Unit LoopState :=
  match s.candidates with
  | [] => .ok s
  | best :: rest =>
    if computeTimeout best.score < 5 ∨ ¬ (eventArrived = true) then
      let allIds := allIdsOf best
      let s1 :=
        if ¬ allIds.any (fun i => i ∈ s.userInMatch) then
          { userInMatch := s.userInMatch ++ allIds
            mm := create_match best s.mm allIds now
            candidates := rest }
        else { s with candidates := rest }
      (watch_for_matches insc s1.mm).map fun cands => { s1 with candidates := cands }
    else .ok s

/-- The debounce `while` loop, driven by an oracle listing, for each
iteration, whether a qualifying readiness event arrived during that wait.
The loop exits when the candidate list is empty; the oracle doubles as
fuel. -/
def run_loop (insc : String → Team) (oracle : List Bool) (now : Nat)
    (s : LoopState) : Except Unit LoopState :=
  match oracle with
  | [] => .ok s
  | e :: es =>
    if s.candidates.isEmpty then .ok s
    else
      (loop_iter insc e now s).bind fun s1 => run_loop insc es now s1

/-- Point update of the `inscriptions.json["teams"]` dictionary, modelled as
a total map from team keys to records. -/
def updateTeam (insc : String → Team) (name : String) (f : Team → Team) :
    String → Team :=
  fun k => if k = name then f (insc k) else insc k

/-- History update of the result ingestion in `bot.on_message`
(bot.py:1013-1030): only when the duel id is not already in the winning
team's `previousDuelIds`, append outcome / opponent / duel id to both teams
and set both teams' `lastGamemode` to the match's gamemode. -/
def apply_duel_result (insc : String → Team)
    (winningTeam loosingTeam duelId matchType : String) : String → Team :=
  if duelId ∈ (insc winningTeam).previousDuelIds then insc
  else
    let insc1 := updateTeam insc winningTeam fun t =>
      { t with score := t.score ++ ["1"]
               previousOpponents := t.previousOpponents ++ [loosingTeam]
               previousDuelIds := t.previousDuelIds ++ [duelId]
               lastGamemode := some matchType }
    updateTeam insc1 loosingTeam fun t =>
      { t with score := t.score ++ ["0"]
               previousOpponents := t.previousOpponents ++ [winningTeam]
               previousDuelIds := t.previousDuelIds ++ [duelId]
               lastGamemode := some matchType }

/-- `hellcup.reset_insc` (hellcup.py:1024-1036): clear all three history
lists and the last gamemode of every team. -/
def reset_insc (insc : String → Team) : String → Team :=
  fun k =>
    { insc k with score := []
                  previousOpponents := []
                  previousDuelIds := []
                  lastGamemode := none }

/-- The parallel-lists invariant of a team record: outcomes, previous
opponents and previous duel ids always have the same length. -/
def sameLen (t : Team) : Prop :=
  t.score.length = t.previousOpponents.length
    ∧ t.previousOpponents.length = t.previousDuelIds.length

/-- One side of the duel payload fetched by `hellcup.process_duel_link`:
a geoguessr team with its id and the profile ids of its players. -/
structure GGTeamData where
  id : String
  players : List String
  deriving DecidableEq, Repr

/-- The duel payload fields used by the winner determination of
`hellcup.process_duel_link`. -/
structure DuelJson where
  winningTeamId : String
  teams : List GGTeamData
  deriving DecidableEq, Repr

/-- First element of the winning side's player list
(hellcup.py:998-1003); Python `[...][0]` raises on an empty list, modelled
with `Option`. -/
def winningPlayerId? (js : DuelJson) : Option String :=
  ((js.teams.filter fun t => t.id == js.winningTeamId).flatMap fun t => t.players).head?

/-- Winner determination of `hellcup.process_duel_link`
(hellcup.py:1005-1021): map the match's `usersIds` to profile ids through
the player registry, locate the winning player's index and pick
`teams[0]` when the index is `> 2`, `teams[1]` otherwise (and the opposite
team as the loser).  `players` maps a Discord id to the registered
geoguessr profile id. -/
def process_duel_teams (players : String → String) (js : DuelJson)
    (m : MatchRec) : Option (String × String) :=
  (winningPlayerId? js).map fun winningPlayerId =>
    let ggIds := m.usersIds.map players
    ((if 2 < ggIds.indexOf winningPlayerId then m.team1 else m.team2),
     (if ggIds.indexOf winningPlayerId ≤ 2 then m.team1 else m.team2))

/-- Button state plus matchmaking state of the whole system; the
`waitingTeams` set models which teams' buttons currently show the waiting
label (set by `update_button`), the guard of both branches of the
`is_team_ready` handler. -/
structure SysState where
  waitingTeams : List String
  userInMatch : List String
  mm : MatchmakingState
  deriving DecidableEq, Repr

/-- `update_button(..., WAITING)` on the waiting-team set. -/
def addWaiting (team : String) (l : List String) : List String :=
  if team ∈ l then l else team :: l

/-- The ready branch of the `is_team_ready` handler (bot.py:672-791):
set the button to waiting, enqueue the team into each mode whose role both
members hold (`nmE` / `nmpzE`), revert the button when eligible for neither
mode, otherwise scan for matches and run the debounce loop. -/
def ready_handler (insc : String → Team) (now : Nat) (team : String)
    (nmE nmpzE : Bool) (oracle : List Bool) (s : SysState) :
    Except Unit SysState :=
  let waiting1 := addWaiting team s.waitingTeams
  let p := s.mm.pendingTeams
  let p1 := if nmE then { p with NM := p.NM ++ [team] } else p
  let p2 := if nmpzE then { p1 with NMPZ := p1.NMPZ ++ [team] } else p1
  let mm1 : MatchmakingState :=
    { pendingTeams := p2, currentMatches := s.mm.currentMatches }
  if ¬ (nmE || nmpzE) then
    .ok { waitingTeams := waiting1.erase team
          userInMatch := s.userInMatch
          mm := mm1 }
  else
    (watch_for_matches insc mm1).bind fun cands =>
      if cands.isEmpty then
        .ok { waitingTeams := waiting1, userInMatch := s.userInMatch, mm := mm1 }
      else
        (run_loop insc oracle now
            { userInMatch := s.userInMatch, mm := mm1, candidates := cands }).map
          fun fin =>
            { waitingTeams := waiting1, userInMatch := fin.userInMatch, mm := fin.mm }

/-- Transitions of the matchmaking system generated by button clicks on a
team's `is_team_ready` button: the ready branch (button currently shows the
ready label) and the un-ready branch (button currently shows the waiting
label, bot.py:793-804).  `insc` is the fixed team registry and `now` the
clock value used for match start times. -/
inductive Step (insc : String → Team) (now : Nat) : SysState → SysState → Prop
  | ready (s s' : SysState) (team : String) (nmE nmpzE : Bool) (oracle : List Bool) :
      team ∉ s.waitingTeams →
      ready_handler insc now team nmE nmpzE oracle s = .ok s' →
      Step insc now s s'
  | unready (s s' : SysState) (team : String) :
      team ∈ s.waitingTeams →
      s' = { waitingTeams := s.waitingTeams.erase team
             userInMatch := s.userInMatch
             mm := { pendingTeams := unready_update s.mm.pendingTeams team
                     currentMatches := s.mm.currentMatches } } →
      Step insc now s s'

/-- Concrete registered players used by the concrete evaluations. -/
def p1 : Player := { discordId := "1", geoguessrId := "g1", flag := "fr", isPro := true }

/-- Second member of the first sample team. -/
def p2 : Player := { discordId := "2", geoguessrId := "g2", flag := "de", isPro := false }

/-- First member of the second sample team. -/
def p3 : Player := { discordId := "3", geoguessrId := "g3", flag := "es", isPro := false }

/-- Second member of the second sample team. -/
def p4 : Player := { discordId := "4", geoguessrId := "g4", flag := "it", isPro := false }

/-- Fresh team `1_2` with empty history, as `create_team` writes it. -/
def teamT : Team := create_team_entry p1 p2 0

/-- Fresh team `3_4` with empty history. -/
def teamU : Team := create_team_entry p3 p4 0

/-- Team registry holding `teamT` under key `1_2` and `teamU` elsewhere. -/
def insc0 : String → Team := fun k => if k = "1_2" then teamT else teamU

/-- Team `1_2` with five recorded outcome strings, as the result ingestor
leaves it after five duels. -/
def teamA5 : Team :=
  { teamT with score := ["1", "1", "1", "0", "1"]
               previousOpponents := ["x1", "x2", "x3", "x4", "x5"]
               previousDuelIds := ["e1", "e2", "e3", "e4", "e5"] }

/-- Team `3_4` with five recorded outcome strings. -/
def teamB5 : Team :=
  { teamU with score := ["0", "0", "0", "1", "0"]
               previousOpponents := ["y1", "y2", "y3", "y4", "y5"]
               previousDuelIds := ["f1", "f2", "f3", "f4", "f5"] }

/-- Discord-id to geoguessr-id registry for the four sample players. -/
def players1 : String → String := fun d =>
  if d = "1" then "g1" else if d = "2" then "g2"
  else if d = "3" then "g3" else "g4"

/-- Active match between `1_2` and `3_4`; `usersIds` lists `team1`'s
members first, exactly as bot.py:763-768 builds `allIds`. -/
def m1 : MatchRec :=
  { team1 := "1_2", team2 := "3_4", usersIds := ["1", "2", "3", "4"],
    matchType := "NM 30s", startTime := 0 }

/-- Duel payload in which the winning side's first player is `g1`, the
registered profile of player `1`, a member of team `1_2`. -/
def js1 : DuelJson :=
  { winningTeamId := "W",
    teams := [{ id := "W", players := ["g1", "g2"] },
              { id := "L", players := ["g3", "g4"] }] }

/-- Players of the two teams used for the debounce-loop runs. -/
def p5 : Player := { discordId := "5", geoguessrId := "g5", flag := "fr", isPro := true }

/-- Second member of team `5_6`. -/
def p6 : Player := { discordId := "6", geoguessrId := "g6", flag := "de", isPro := false }

/-- First member of team `7_8`. -/
def p7 : Player := { discordId := "7", geoguessrId := "g7", flag := "es", isPro := false }

/-- Second member of team `7_8`. -/
def p8 : Player := { discordId := "8", geoguessrId := "g8", flag := "it", isPro := false }

/-- Team `5_6`, whose most recent opponent is `7_8`: the pair scores
`0.1 + 0.1 = 0.2`, giving a 60 second debounce wait. -/
def teamV : Team :=
  { create_team_entry p5 p6 0 with
      score := ["1"], previousOpponents := ["7_8"], previousDuelIds := ["d0"] }

/-- Team `7_8`, whose most recent opponent is `5_6`. -/
def teamW : Team :=
  { create_team_entry p7 p8 0 with
      score := ["0"], previousOpponents := ["5_6"], previousDuelIds := ["d0"] }

/-- Registry for the debounce-loop run. -/
def insc8 : String → Team := fun k => if k = "5_6" then teamV else teamW

/-- Matchmaking state with `5_6` and `7_8` queued for NM. -/
def mm8 : MatchmakingState :=
  { pendingTeams := { NM := ["5_6", "7_8"], NMPZ := [] }, currentMatches := [] }

/-- The single candidate the scan produces from `mm8`. -/
def c8c : Candidate := { team1 := "5_6", team2 := "7_8", score := 1/5, gamemode := "NM 30s" }

/-- The match record the loop commits from that ranking. -/
def m8 : MatchRec :=
  { team1 := "5_6", team2 := "7_8", usersIds := ["5", "6", "7", "8"],
    matchType := "NM 30s", startTime := 0 }

/-- Empty matchmaking document. -/
def mmEmpty : MatchmakingState :=
  { pendingTeams := { NM := [], NMPZ := [] }, currentMatches := [] }

/-- A head candidate whose score is exactly `0.95`. -/
def c95 : Candidate := { team1 := "1_2", team2 := "3_4", score := 19/20, gamemode := "NM 30s" }

/-- Loop state holding the `0.95` candidate. -/
def st95 : LoopState := { userInMatch := [], mm := mmEmpty, candidates := [c95] }

/-- Initial system state: no button waiting, empty queues, no matches. -/
def sys0 : SysState :=
  { waitingTeams := [], userInMatch := [], mm := mmEmpty }

/-- After team `1_2` (eligible for NM only) clicks ready. -/
def sys1 : SysState :=
  { waitingTeams := ["1_2"], userInMatch := [],
    mm := { pendingTeams := { NM := ["1_2"], NMPZ := [] }, currentMatches := [] } }

/-- After `1_2` clicks un-ready: the `NMPZ` removal raises first, so the
stale `NM` entry survives. -/
def sys2 : SysState :=
  { waitingTeams := [], userInMatch := [],
    mm := { pendingTeams := { NM := ["1_2"], NMPZ := [] }, currentMatches := [] } }

/-- After `1_2` clicks ready again: it is now queued twice in NM. -/
def sys3 : SysState :=
  { waitingTeams := ["1_2"], userInMatch := [],
    mm := { pendingTeams := { NM := ["1_2", "1_2"], NMPZ := [] }, currentMatches := [] } }

/-- The match committed between `1_2` and `3_4` in the final step. -/
def m6 : MatchRec :=
  { team1 := "1_2", team2 := "3_4", usersIds := ["1", "2", "3", "4"],
    matchType := "NM 30s", startTime := 0 }

/-- After `3_4` clicks ready and the scan commits the match: `create_match`
erased only the first `1_2` entry, so `1_2` is still pending in NM. -/
def sys4 : SysState :=
  { waitingTeams := ["3_4", "1_2"], userInMatch := ["1", "2", "3", "4"],
    mm := { pendingTeams := { NM := ["1_2"], NMPZ := [] }, currentMatches := [m6] } }

lemma pySum_error {l : List String} (h : l ≠ []) : pySum l = .error () := by
  cases l with
  | nil => exact absurd rfl h
  | cons x xs => rfl

lemma any_four_comm (a b c d : Bool) :
    ([a, b, c, d].any fun x => x) = ([c, d, a, b].any fun x => x) := by
  cases a <;> cases b <;> cases c <;> cases d <;> rfl

lemma dedup_four_len (a b c d : String) :
    ([a, b, c, d] : List String).dedup.length = ([c, d, a, b] : List String).dedup.length := by
  have h : ([a, b, c, d] : List String).Perm [c, d, a, b] := by
    simpa using @List.perm_append_comm String [a, b] [c, d]
  exact h.dedup.length_eq

lemma eligible_symm (t1 t2 : Team) : eligible t1 t2 ↔ eligible t2 t1 := by
  unfold eligible
  rw [any_four_comm, dedup_four_len t1.member1.flag t1.member2.flag t2.member1.flag
      t2.member2.flag,
    dedup_four_len t1.member1.discordId t1.member2.discordId t2.member1.discordId
      t2.member2.discordId]

lemma filter_erase_of_neg (p : String → Bool) (a : String) (h : p a = false)
    (l : List String) : (l.erase a).filter p = l.filter p := by
  induction l with
  | nil => rfl
  | cons b bs ih =>
    by_cases hba : b = a
    · subst hba
      rw [List.erase_cons, if_pos (by simp), List.filter_cons]
      simp [h]
    · rw [List.erase_cons, if_neg (by simp [hba]), List.filter_cons, List.filter_cons]
      cases hpb : p b <;> simp [hpb, ih]

lemma removeIfPresent_eq_erase (l : List String) (x : String) :
    removeIfPresent l x = l.erase x := by
  unfold removeIfPresent
  by_cases h : x ∈ l
  · rw [if_pos h]
  · rw [if_neg h, List.erase_of_not_mem h]

/-- C1: the winner-to-team mapping of `process_duel_link` is wrong.  Here the
winning player's profile id is `g1`, the registered profile of player `1`,
first member (index 0 of `usersIds`) of team `1_2`; the claim (and the
function's own contract) requires `("1_2", "3_4")`, but the code compares
the index with `> 2` instead of `< 2` and returns team `3_4` as the winner
and `1_2` as the loser. -/
theorem C1_winner_mapping_code_eval :
    winningPlayerId? js1 = some "g1"
      ∧ players1 "1" = "g1"
      ∧ m1.usersIds.map players1 = ["g1", "g2", "g3", "g4"]
      ∧ process_duel_teams players1 js1 m1 = some ("3_4", "1_2") := by
  decide

/-- C2: with both teams holding five recorded outcomes — the strings
`"1"`/`"0"` appended by the ingestor — the skill-balance branch of
`get_duel_score` evaluates `sum` of a list of strings and raises
`TypeError` instead of returning the claimed value. -/
theorem C2_skill_penalty_code_eval :
    teamA5.score.length = 5 ∧ teamB5.score.length = 5
      ∧ eligible teamA5 teamB5
      ∧ get_duel_score teamA5 teamB5 "NM 30s" = .error () := by
  decide

/-- C4: when the team is queued only in NM, the single `try` block of the
un-ready branch raises on the `NMPZ` removal first, the `except` swallows
it, and the `NM` removal never runs: the team remains in the NM list. -/
theorem C4_unready_code_eval :
    unready_update { NM := ["1_2"], NMPZ := [] } "1_2" = { NM := ["1_2"], NMPZ := [] }
      ∧ "1_2" ∈ (unready_update { NM := ["1_2"], NMPZ := [] } "1_2").NM := by
  decide

/-- C5 counterexample: a candidate whose score is exactly `0.95` has
`timeout = min((1-0.95)*100, 60) = 5`, which is not `< 5`, so it is not
short-circuited: when a readiness event arrives during the wait the
iteration commits nothing and leaves the state unchanged — refuting
"every candidate whose score is at least 0.95 is committed immediately". -/
theorem C5_boundary_counterexample :
    (19/20 : ℚ) ≤ c95.score
      ∧ computeTimeout c95.score = 5
      ∧ ¬ computeTimeout c95.score < 5
      ∧ loop_iter insc0 true 0 st95 = .ok st95
      ∧ st95.mm.currentMatches = [] := by
  with_unfolding_all decide

/-- C8 counterexample: a readiness-toggle event arriving before the deadline
does not abandon the scan.  The single candidate scores `0.2`, so the wait
is 60 seconds; the event arrives during the first wait (`true`), the
iteration leaves the state untouched, and the next iteration commits the
match from the very same ranking — the claim says no match is committed
from the current ranking once an event arrives. -/
theorem C8_abandon_counterexample :
    watch_for_matches insc8 mm8 = .ok [c8c]
      ∧ ¬ computeTimeout c8c.score < 5
      ∧ loop_iter insc8 true 0 { userInMatch := [], mm := mm8, candidates := [c8c] }
          = .ok { userInMatch := [], mm := mm8, candidates := [c8c] }
      ∧ run_loop insc8 [true, false] 0 { userInMatch := [], mm := mm8, candidates := [c8c] }
          = .ok { userInMatch := ["5", "6", "7", "8"],
                  mm := { pendingTeams := { NM := [], NMPZ := [] },
                          currentMatches := [m8] },
                  candidates := [] }
      ∧ m8.team1 = c8c.team1 ∧ m8.team2 = c8c.team2 := by
  with_unfolding_all decide

/-- C6: a reachable four-click trace violating the queue purge.  Team `1_2`
(eligible for NM only) readies, un-readies (the buggy removal leaves its NM
entry), readies again (queued twice), then `3_4` readies and the scan
commits the match `1_2` vs `3_4` — after which `1_2` is still in the NM
pending queue, because `create_match` removed only the first of its two
entries. -/
theorem C6_queue_purge_code_eval :
    Relation.ReflTransGen (Step insc0 0) sys0 sys4
      ∧ sys4.mm.currentMatches = [m6]
      ∧ m6.team1 = "1_2" ∧ m6.team2 = "3_4"
      ∧ "1_2" ∈ sys4.mm.pendingTeams.NM := by
  refine ⟨?_, rfl, rfl, rfl, by decide⟩
  have h1 : Step insc0 0 sys0 sys1 :=
    Step.ready sys0 sys1 "1_2" true false [] (by decide) (by with_unfolding_all decide)
  have h2 : Step insc0 0 sys1 sys2 :=
    Step.unready sys1 sys2 "1_2" (by decide) (by decide)
  have h3 : Step insc0 0 sys2 sys3 :=
    Step.ready sys2 sys3 "1_2" true false [] (by decide) (by with_unfolding_all decide)
  have h4 : Step insc0 0 sys3 sys4 :=
    Step.ready sys3 sys4 "3_4" true false [false] (by decide) (by with_unfolding_all decide)
  exact .head h1 (.head h2 (.head h3 (.single h4)))

/-- C3: re-delivering the same duel id for the same match is a no-op on team
history: the second application of the history update finds the duel id in
the winning team's `previousDuelIds` and changes nothing — outcomes,
opponents, duel ids and `lastGamemode` of both teams are identical after
the second delivery to after the first. -/
theorem C3_ingestion_idempotent (insc : String → Team) (w l d g : String) :
    apply_duel_result (apply_duel_result insc w l d g) w l d g
      = apply_duel_result insc w l d g := by
  have hmem : d ∈ ((apply_duel_result insc w l d g) w).previousDuelIds := by
    unfold apply_duel_result
    by_cases h : d ∈ (insc w).previousDuelIds
    · rw [if_pos h]; exact h
    · rw [if_neg h]
      unfold updateTeam
      by_cases hwl : w = l
      · simp [hwl]
      · simp [hwl]
  conv_lhs => rw [apply_duel_result]
  rw [if_pos hmem]

/-- C7: the duel scorer is symmetric in the two teams: the eligibility gate,
the crash condition of the skill-balance branch, the novelty sum and the
two gamemode penalties are all invariant under swapping the teams. -/
theorem C7_score_symmetric (t1 t2 : Team) (g : String) :
    get_duel_score t1 t2 g = get_duel_score t2 t1 g := by
  unfold get_duel_score
  by_cases he : eligible t1 t2
  · have he' : eligible t2 t1 := (eligible_symm t1 t2).mp he
    rw [if_neg (not_not_intro he), if_neg (not_not_intro he')]
    by_cases h5 : 5 ≤ t1.score.length ∧ 5 ≤ t2.score.length
    · have h5' : 5 ≤ t2.score.length ∧ 5 ≤ t1.score.length := ⟨h5.2, h5.1⟩
      rw [if_pos h5, if_pos h5']
      have e1 : pySum t1.score = .error () := pySum_error (by
        intro hnil
        rw [hnil] at h5
        simp at h5)
      have e2 : pySum t2.score = .error () := pySum_error (by
        intro hnil
        rw [hnil] at h5
        simp at h5)
      simp [e1, e2, Except.bind, Except.map]
    · have h5' : ¬ (5 ≤ t2.score.length ∧ 5 ≤ t1.score.length) :=
        fun hc => h5 ⟨hc.2, hc.1⟩
      rw [if_neg h5, if_neg h5']
      simp only [Except.map]
      by_cases c1 : t1.lastGamemode = some g <;> by_cases c2 : t2.lastGamemode = some g <;>
        simp [c1, c2] <;> ring
  · have he' : ¬ eligible t2 t1 := fun hc => he ((eligible_symm t1 t2).mpr hc)
    rw [if_pos he, if_pos he']

/-- C9: the three history lists always have equal lengths: team creation
starts all three empty, the result ingestion appends one element to all
three lists of the winning and of the losing team under the same guard, and
the season reset clears all three together. -/
theorem C9_parallel_lists :
    (∀ q1 q2 ch, sameLen (create_team_entry q1 q2 ch))
      ∧ (∀ insc w l d g, (∀ k, sameLen (insc k)) →
          ∀ k, sameLen (apply_duel_result insc w l d g k))
      ∧ (∀ insc k, sameLen (reset_insc insc k)) := by
  refine ⟨fun _ _ _ => ⟨rfl, rfl⟩, ?_, fun _ _ => ⟨rfl, rfl⟩⟩
  intro insc w l d g hall k
  unfold apply_duel_result updateTeam
  by_cases hguard : d ∈ (insc w).previousDuelIds
  · rw [if_pos hguard]; exact hall k
  · rw [if_neg hguard]
    by_cases hkl : k = l
    · subst hkl
      by_cases hkw : k = w
      · subst hkw
        simp [sameLen, List.length_append, (hall k).1, (hall k).2]
      · simp [sameLen, hkw, List.length_append, (hall k).1, (hall k).2]
    · by_cases hkw : k = w
      · subst hkw
        simp [sameLen, hkl, List.length_append, (hall k).1, (hall k).2]
      · simp [sameLen, hkl, hkw, (hall k).1, (hall k).2]

/-- C9 witness: the preservation clause applied to a concrete registry in
which every team satisfies the invariant. -/
theorem C9_parallel_lists_witness :
    sameLen (apply_duel_result (fun _ => teamT) "1_2" "3_4" "dd" "NM 30s" "1_2") :=
  C9_parallel_lists.2.1 (fun _ => teamT) "1_2" "3_4" "dd" "NM 30s"
    (fun _ => ⟨rfl, rfl⟩) "1_2"

/-- C10: `create_match` only erases the first occurrence of each matched
team-key from each mode list and appends exactly one match record: the
sublist of all other team-keys (membership and relative order) is unchanged
in both mode lists, and the existing match records are untouched. -/
theorem C10_create_match_frame (c : Candidate) (mm : MatchmakingState)
    (allIds : List String) (now : Nat) :
    (create_match c mm allIds now).pendingTeams.NM
        = (mm.pendingTeams.NM.erase c.team1).erase c.team2
      ∧ (create_match c mm allIds now).pendingTeams.NMPZ
        = (mm.pendingTeams.NMPZ.erase c.team1).erase c.team2
      ∧ (create_match c mm allIds now).pendingTeams.NM.filter
            (fun t => !(t == c.team1 || t == c.team2))
        = mm.pendingTeams.NM.filter (fun t => !(t == c.team1 || t == c.team2))
      ∧ (create_match c mm allIds now).pendingTeams.NMPZ.filter
            (fun t => !(t == c.team1 || t == c.team2))
        = mm.pendingTeams.NMPZ.filter (fun t => !(t == c.team1 || t == c.team2))
      ∧ (create_match c mm allIds now).currentMatches
        = mm.currentMatches ++ [mkMatchRec c allIds now] := by
  unfold create_match
  simp only [removeIfPresent_eq_erase]
  refine ⟨by simp, by simp, ?_, ?_, by simp⟩ <;>
    rw [filter_erase_of_neg _ c.team2 (by simp), filter_erase_of_neg _ c.team1 (by simp)]

/-- C5 amended: the wait timeout for the head candidate is
`min((1 - score) * 100, 60)`, and the short-circuit `timeout < 5` fires
exactly for scores strictly greater than `0.95` — a score of exactly `0.95`
yields a 5-second wait instead of an immediate commit. -/
theorem C5_timeout_amended (s : ℚ) :
    computeTimeout s = min ((1 - s) * 100) 60
      ∧ (computeTimeout s < 5 ↔ 19/20 < s) := by
  refine ⟨rfl, ?_⟩
  unfold computeTimeout
  rw [min_lt_iff]
  constructor
  · rintro (h | h)
    · linarith
    · norm_num at h
  · intro h
    left
    linarith

/-- C8 amended: when a qualifying readiness event arrives before the
deadline (and the timeout was not short-circuited), the loop iteration
changes nothing: same candidate ranking, same queues, same matches — the
scan is retained, not abandoned. -/
theorem C8_event_keeps_state (insc : String → Team) (now : Nat) (s : LoopState)
    (best : Candidate) (rest : List Candidate)
    (hc : s.candidates = best :: rest)
    (ht : ¬ computeTimeout best.score < 5) :
    loop_iter insc true now s = .ok s := by
  have hcond : ¬ (computeTimeout best.score < 5 ∨ ¬ (true = true)) := by
    simpa using ht
  obtain ⟨ui, mm1, cands⟩ := s
  dsimp only at hc
  subst hc
  unfold loop_iter
  dsimp only
  rw [if_neg hcond]

/-- C8 amended witness: the concrete `0.2`-scored candidate with an
arriving event. -/
theorem C8_event_keeps_state_witness :
    loop_iter insc8 true 0 { userInMatch := [], mm := mm8, candidates := [c8c] }
      = .ok { userInMatch := [], mm := mm8, candidates := [c8c] } :=
  C8_event_keeps_state insc8 0 _ c8c [] rfl (by with_unfolding_all decide)

end BlitzBot
